import Mathlib

/-!
Verification of the discodrome playback core against its specification.

The Python sources (`subsonic.py`, `extensions/music.py`, `pagination.py`)
are shallowly embedded below: each pure computation becomes a Lean
function, stateful code becomes explicit state passing, and Python
exceptions become `Except` values.  Network I/O is factored out: every
function that performs an HTTP request is modelled as a function of the
decoded response it would have received, so that the response-processing
and error-handling logic of the source is captured exactly.
-/

namespace Discodrome

/-! ## Exceptions

Here `APIError` is the exception class defined in `subsonic.py` (carrying the
numeric error code and a message).  `KeyError`/`IndexError` model the
built-in Python exceptions raised by dictionary / list subscripting when a
key or index is absent. -/

inductive PyExc where
  | APIError (errorcode : Int) (message : String)
  | KeyError (key : String)
  | IndexError (idx : Nat)
  deriving DecidableEq, Repr

/-! ## The Subsonic response envelope

Every JSON response carries a `subsonic-response` object with a `status`
field ("ok" or "failed") and, on failure, an `error` object holding
`code` and `message`.  `errorCode`/`errorMessage` are `none` when the
`error` key is absent (subscripting then raises `KeyError`). -/

structure Envelope where
  status : String
  errorCode : Option Int
  errorMessage : Option String
  deriving DecidableEq, Repr

/-- The fatal error codes of the Subsonic API error taxonomy. -/
def fatalCodes : List Int := [0, 10, 20, 30, 40, 41, 50, 60]

/-- The `match err_code` statement of `check_subsonic_error` (subsonic.py
lines 354-384): a chain of equality tests on the error code; `raise
APIError(...)` becomes `Except.error`; the fall-through `case 70` branch
logs a warning and returns `True`.  Reading a `none` code models the
`KeyError` that subscripting `["error"]["code"]` raises when the key is
absent. -/
def checkErrCode : Option Int → Except PyExc Bool
  | none => .error (.KeyError "error")
  | some err_code =>
      if err_code = 0 then .error (.APIError err_code "Generic Error.")
      else if err_code = 10 then .error (.APIError err_code "Required Parameter Missing.")
      else if err_code = 20 then
        .error (.APIError err_code "Incompatible Subsonic REST protocol version. Client must upgrade.")
      else if err_code = 30 then
        .error (.APIError err_code "Incompatible Subsonic REST protocol version. Server must upgrade.")
      else if err_code = 40 then .error (.APIError err_code "Wrong username or password.")
      else if err_code = 41 then
        .error (.APIError err_code "Token authentication not supported for LDAP users.")
      else if err_code = 50 then
        .error (.APIError err_code "User is not authorized for the given operation.")
      else if err_code = 60 then
        .error (.APIError err_code "The trial period for the Subsonic server is over.")
      else if err_code = 70 then .ok true
      else .error (.APIError err_code "Unknown Error Code.")

/-- Embedding of `subsonic.check_subsonic_error` (subsonic.py lines
340-387) applied to an already-decoded JSON envelope: an ok status means
no error, otherwise the error code decides between raising and flagging. -/
def check_subsonic_error (response : Envelope) : Except PyExc Bool :=
  if response.status = "ok" then
    .ok false
  else
    checkErrCode response.errorCode

/-! ## Metadata model

JSON payloads are modelled as records of `Option` fields: `some v` when
the key is present, `none` when absent, exactly the distinction the
Python constructors test with `if "k" in json_object`. -/

structure SongJson where
  id : Option String
  title : Option String
  album : Option String
  artist : Option String
  coverArt : Option String
  duration : Option Int
  deriving DecidableEq, Repr

/-- Embedding of the `Song` class of subsonic.py: the six fields kept from
the JSON payload.  The class exposes them only through read-only
`@property` getters, which the immutability of a Lean structure mirrors. -/
structure Song where
  song_id : String
  title : String
  album : String
  artist : String
  cover_id : String
  duration : Int
  deriving DecidableEq, Repr

/-- Embedding of `Song.__init__` (subsonic.py lines 51-58): each field is
taken from the payload when present and otherwise defaulted. -/
def Song.ofJson (json_object : SongJson) : Song where
  song_id := json_object.id.getD ""
  title := json_object.title.getD "Unknown Track"
  album := json_object.album.getD "Unknown Album"
  artist := json_object.artist.getD "Unknown Artist"
  cover_id := json_object.coverArt.getD ""
  duration := json_object.duration.getD 0

structure AlbumJson where
  id : Option String
  name : Option String
  artist : Option String
  coverArt : Option String
  songCount : Option Int
  duration : Option Int
  year : Option Int
  /-- The `"song"` entry of a full album payload (`Album.__init__` iterates
  over `json_object["song"]`).  Album payloads returned by `getAlbum` carry
  this list; `AlbumMeta` never reads it. -/
  song : List SongJson
  deriving DecidableEq, Repr

/-- Embedding of the `AlbumMeta` class of subsonic.py (lines 97-146). -/
structure AlbumMeta where
  album_id : String
  name : String
  artist : String
  cover_id : String
  song_count : Int
  duration : Int
  year : Int
  deriving DecidableEq, Repr

/-- Embedding of `AlbumMeta.__init__` (subsonic.py lines 99-106). -/
def AlbumMeta.ofJson (json_object : AlbumJson) : AlbumMeta where
  album_id := json_object.id.getD ""
  name := json_object.name.getD "Unknown Album"
  artist := json_object.artist.getD "Unknown Artist"
  cover_id := json_object.coverArt.getD ""
  song_count := json_object.songCount.getD 0
  duration := json_object.duration.getD 0
  year := json_object.year.getD 0

/-- Embedding of the `Album` class (subsonic.py lines 148-159): the
metadata of `AlbumMeta` plus the parsed song list. -/
structure Album where
  meta : AlbumMeta
  songs : List Song
  deriving DecidableEq, Repr

/-- Embedding of `Album.__init__` (subsonic.py lines 150-154). -/
def Album.ofJson (json_object : AlbumJson) : Album where
  meta := AlbumMeta.ofJson json_object
  songs := json_object.song.map Song.ofJson

structure ArtistJson where
  id : Option String
  name : Option String
  coverArt : Option String
  albumCount : Option Int
  deriving DecidableEq, Repr

/-- Embedding of the `ArtistMeta` class of subsonic.py (lines 163-189). -/
structure ArtistMeta where
  artist_id : String
  name : String
  cover_id : String
  album_count : Int
  deriving DecidableEq, Repr

/-- Embedding of `ArtistMeta.__init__` (subsonic.py lines 165-169). -/
def ArtistMeta.ofJson (json_object : ArtistJson) : ArtistMeta where
  artist_id := json_object.id.getD ""
  name := json_object.name.getD "Unknown Artist"
  cover_id := json_object.coverArt.getD ""
  album_count := json_object.albumCount.getD 0

/-! ## Search (`search3.view`) -/

/-- The `searchResult3` object of a search response: three optional lists,
each key tested with `if "song" in search_results` etc. -/
structure SearchResult3Json where
  song : Option (List SongJson)
  album : Option (List AlbumJson)
  artist : Option (List ArtistJson)
  deriving DecidableEq, Repr

/-- A decoded `search3.view` response: the envelope plus the optional
`searchResult3` object. -/
structure SearchResponse where
  env : Envelope
  searchResult3 : Option SearchResult3Json
  deriving DecidableEq, Repr

/-- Embedding of the `SearchResults` class (subsonic.py lines 292-323):
the envelope fields of `ApiResponse` plus the three parsed result lists. -/
structure SearchResults where
  env : Envelope
  songs : List Song
  albums : List AlbumMeta
  artists : List ArtistMeta
  deriving DecidableEq, Repr

/-- Embedding of `SearchResults.__init__` (subsonic.py lines 294-308):
`searchResult3` defaults to the empty object when absent, and each of the
three categories defaults to the empty list when its key is absent. -/
def SearchResults.ofResponse (response : SearchResponse) : SearchResults :=
  let search_results := response.searchResult3.getD ⟨none, none, none⟩
  { env := response.env
    songs := (search_results.song.getD []).map Song.ofJson
    albums := (search_results.album.getD []).map AlbumMeta.ofJson
    artists := (search_results.artist.getD []).map ArtistMeta.ofJson }

/-- Embedding of `subsonic.search` (subsonic.py lines 389-424) applied to
the decoded response: after the HTTP round-trip the function builds
`SearchResults(search_data)` directly — it performs no
`check_subsonic_error` call and raises no `APIError` for any envelope. -/
def search (search_data : SearchResponse) : Except PyExc SearchResults :=
  .ok (SearchResults.ofResponse search_data)

/-! ## Artist resolution and discography -/

/-- Embedding of `subsonic.get_artist_id` (subsonic.py lines 469-492)
applied to the decoded response of its artist-restricted search
(`artistCount=1`, `albumCount=0`, `songCount=0`).  On a soft error the
function returns `None`; otherwise it subscripts
`searchResult3.artist[0].id`, raising `KeyError`/`IndexError` when the
path is absent. -/
def get_artist_id (search_data : SearchResponse) : Except PyExc (Option String) := do
  if ← check_subsonic_error search_data.env then
    return none
  match search_data.searchResult3 with
  | none => throw (.KeyError "searchResult3")
  | some sr =>
    match sr.artist with
    | none => throw (.KeyError "artist")
    | some [] => throw (.IndexError 0)
    | some (first :: _) =>
      match first.id with
      | none => throw (.KeyError "id")
      | some artistid => return (some artistid)

/-- An entry of the `artist.album` list of a `getArtist.view` response;
`get_artist_discography` reads only its `"id"` key. -/
structure AlbumRefJson where
  id : String
  deriving DecidableEq, Repr

/-- A decoded `getArtist.view` response: the envelope plus the optional
`artist` object carrying its optional `album` list. -/
structure ArtistResponse where
  env : Envelope
  artist_album : Option (Option (List AlbumRefJson))
  deriving DecidableEq, Repr

/-- A decoded `getAlbum.view` response: the envelope plus the optional
`album` object. -/
structure AlbumResponse where
  env : Envelope
  album : Option AlbumJson
  deriving DecidableEq, Repr

/-- The per-album fetch loop of `get_artist_discography` (subsonic.py
lines 516-529): for each album id, fetch the album, abort with `None` on
a soft error, raise on a fatal one, and otherwise append the parsed
`Album`.  `fetchAlbum` stands for the network: the response each
`getAlbum.view` request would decode to. -/
def discographyLoop (fetchAlbum : String → AlbumResponse) :
    List AlbumRefJson → Except PyExc (Option (List Album))
  | [] => .ok (some [])
  | albuminfo :: rest => do
    let response := fetchAlbum albuminfo.id
    if ← check_subsonic_error response.env then
      return none
    match response.album with
    | none => throw (.KeyError "album")
    | some albumJson =>
      match ← discographyLoop fetchAlbum rest with
      | none => return none
      | some albums => return some (Album.ofJson albumJson :: albums)

/-- Embedding of `subsonic.get_artist_discography` (subsonic.py lines
494-531) applied to the decoded responses of its three request phases:
resolve the artist id, fetch the artist for its album id list, then fetch
every album individually.  A `None` result models the Python `return
None` paths; an `Except.error` models a propagating exception. -/
def get_artist_discography (search_data : SearchResponse)
    (artistResponse : ArtistResponse) (fetchAlbum : String → AlbumResponse) :
    Except PyExc (Option (List Album)) := do
  let _artistid ← get_artist_id search_data
  if ← check_subsonic_error artistResponse.env then
    return none
  match artistResponse.artist_album with
  | none => throw (.KeyError "artist")
  | some none => throw (.KeyError "album")
  | some (some albums) => discographyLoop fetchAlbum albums

/-! ## Cover art (`getCoverArt`)

`get_album_art_file` receives a raw HTTP response (it never calls
`response.json()` itself): `check_subsonic_error` is given the
`aiohttp.ClientResponse` object, whose `isinstance` branch tries to decode
the body as JSON and returns `False` when decoding fails (a binary image
body).  The body is therefore modelled as either a JSON envelope or
binary data. -/

inductive HttpBody where
  | json (env : Envelope)
  | binary
  deriving DecidableEq, Repr

structure HttpResponse where
  status : Nat
  body : HttpBody
  deriving DecidableEq, Repr

/-- Embedding of the `isinstance(response, aiohttp.ClientResponse)` branch
of `check_subsonic_error` (subsonic.py lines 344-348): decode the body as
JSON, returning `False` when that fails, then check the envelope. -/
def check_subsonic_error_response (response : HttpResponse) : Except PyExc Bool :=
  match response.body with
  | .binary => .ok false
  | .json env => check_subsonic_error env

/-- The on-disk cache is modelled as the list of file paths that exist
(`os.path.exists`); writing a file prepends its path. -/
abbrev FileCache := List String

/-- Embedding of `subsonic.get_album_art_file` (subsonic.py lines
534-559): return the cached path when the target file exists, otherwise
inspect the fetched response, returning the fallback asset on an error
flag or a non-200 status and persisting the image otherwise.  The result
pairs the returned path with the cache after any write.  `response` is
the decoded fetch; on a cache hit the source returns before any request
is made, so the result cannot depend on it. -/
def get_album_art_file (cache : FileCache) (cover_id : String)
    (response : HttpResponse) : Except PyExc (String × FileCache) :=
  let target_path := "cache/" ++ cover_id ++ ".jpg"
  if target_path ∈ cache then
    .ok (target_path, cache)
  else do
    if (← check_subsonic_error_response response) || response.status ≠ 200 then
      return ("resources/cover_not_found.jpg", cache)
    return (target_path, target_path :: cache)

/-! ## Random and similar songs -/

/-- A decoded `getRandomSongs.view` response: the envelope plus the
`randomSongs.song` list when that path is present. -/
structure RandomSongsResponse where
  env : Envelope
  randomSongs_song : Option (List SongJson)
  deriving DecidableEq, Repr

/-- Embedding of `subsonic.get_random_songs` (subsonic.py lines 561-597)
applied to the decoded response: return `[]` when the error check flags a
soft error, propagate fatal errors, and otherwise parse
`randomSongs.song` (subscripting raises `KeyError` when absent). -/
def get_random_songs (search_data : RandomSongsResponse) : Except PyExc (List Song) := do
  if ← check_subsonic_error search_data.env then
    return []
  match search_data.randomSongs_song with
  | none => throw (.KeyError "randomSongs")
  | some items => return items.map Song.ofJson

/-- A decoded `getSimilarSongs.view` response.  `similarSongs = none`
models an absent key (subscripting raises), `some none` models the empty
object `{}` the source compares against, and `some (some l)` a populated
object with its `song` list. -/
structure SimilarSongsResponse where
  env : Envelope
  similarSongs : Option (Option (List SongJson))
  deriving DecidableEq, Repr

/-- Embedding of `subsonic.get_similar_songs` (subsonic.py lines 599-637)
applied to the decoded response: an id of `None` short-circuits to `[]`
before any request, a flagged soft error yields `[]`, an empty
`similarSongs` object yields `[]`, and otherwise the `song` list is
parsed. -/
def get_similar_songs (song_id : Option String)
    (search_data : SimilarSongsResponse) : Except PyExc (List Song) := do
  if song_id = none then
    return []
  if ← check_subsonic_error search_data.env then
    return []
  match search_data.similarSongs with
  | none => throw (.KeyError "similarSongs")
  | some none => return []
  | some (some items) => return items.map Song.ofJson

/-! ## The `stop` command (music.py lines 158-185)

Only the queue / current-track pair of the guild player is touched.  A
Python list is heterogeneous: after `stop` the queue holds the `None`
that was inserted at its head, so queue elements are modelled as
`Option Song`. -/

structure StopView where
  queue : List (Option Song)
  current_song : Option Song
  deriving DecidableEq, Repr

namespace MusicCog

/-- Embedding of the player mutation performed by `MusicCog.stop`
(music.py lines 177-182): after halting the sink, the source first sets
`player.current_song = None` and only then executes
`player.queue.insert(0, player.current_song)`, inserting the
already-cleared reference. -/
def stop (player : StopView) : StopView :=
  let player1 : StopView := { player with current_song := none }
  { player1 with queue := player1.current_song :: player1.queue }

end MusicCog

/-- Modelled from the spec: `play_audio_queue` is defined on the guild
player object of the `data` module, which is not among the source files
(only its callers in music.py are).  Spec §4.3 specifies `playQueue()`:
if Idle (no current track) and the queue is non-empty, pop the head, set
it as current, hand it to the voice sink, transition to Playing;
otherwise nothing happens. -/
def play_audio_queue (player : StopView) : StopView :=
  match player.current_song, player.queue with
  | none, head :: rest => { queue := rest, current_song := head }
  | _, _ => player

/-! ## The `shuffle` command (music.py lines 329-340)

The command deep-copies the queue (`copy.deepcopy`), then repeatedly pops
a random index of the copy and appends it to a fresh list, which replaces
the queue.  To state anything about object identity, a Python object is
modelled as a `Ref`: an address plus the value stored there.
`copy.deepcopy` produces value-equal objects at fresh addresses. -/

structure Ref (α : Type) where
  addr : Nat
  val : α
  deriving DecidableEq, Repr

/-- Embedding of `copy.deepcopy` applied to a list of objects: recursively copied
objects, equal in value, allocated at the fresh addresses
`base, base+1, ...` (`base` lies beyond every live address). -/
def deepcopyList (base : Nat) : List (Ref α) → List (Ref α)
  | [] => []
  | r :: rest => ⟨base, r.val⟩ :: deepcopyList (base + 1) rest

/-- The pop-at-random-index loop of `MusicCog.shuffle` (music.py lines
335-337): while the temporary queue is non-empty, pop
`randint(0, len - 1)` and append the popped element.  `pick step` is the
random draw of iteration `step`, reduced mod the current length (the
interval `randint` is drawn from). -/
def fyLoop (pick : Nat → Nat) (step : Nat) (temp : List α) : List α :=
  match temp with
  | [] => []
  | x :: rest =>
    let randomindex := pick step % (x :: rest).length
    have hlt : randomindex < (x :: rest).length := Nat.mod_lt _ (Nat.succ_pos _)
    (x :: rest)[randomindex] ::
      fyLoop pick (step + 1) ((x :: rest).eraseIdx randomindex)
termination_by temp.length
decreasing_by
  rw [List.length_eraseIdx_of_lt hlt]
  exact Nat.sub_lt (Nat.succ_pos _) Nat.one_pos

/-- The queue / current-track pair as seen by `shuffle`; queue elements
are object references. -/
structure ShuffleView where
  queue : List (Ref Song)
  current_song : Option (Ref Song)
  deriving DecidableEq, Repr

/-- Embedding of `MusicCog.shuffle` (music.py lines 331-340): deep-copy
the queue, drain the copy in random order, and install the result as the
new queue.  `current_song` is never touched. -/
def MusicCog.shuffle (pick : Nat → Nat) (base : Nat) (player : ShuffleView) : ShuffleView :=
  let temporaryqueue := deepcopyList base player.queue
  { player with queue := fyLoop pick 0 temporaryqueue }

/-! ## The occupancy watchdog (music.py lines 426-452)

`on_voice_state_update` runs on every membership change: if the bot is
connected and is the sole channel member, it sleeps 10 seconds and then
re-checks; if the bot is still the sole member it disconnects and
hard-resets the guild player.  Real time is abstracted into two atomic
steps per handler instance — the initial observation and the
expiry re-check — interleaved arbitrarily with membership events and
with the steps of other overlapping instances. -/

structure WatchPlayer where
  queue : List Song
  current_song : Option Song
  deriving DecidableEq, Repr

/-- The channel/guild state the watchdog acts on: whether the bot is
connected, how many non-bot members share its channel, and the guild
player. -/
structure VoiceWorld where
  connected : Bool
  others : Nat
  player : WatchPlayer
  deriving DecidableEq, Repr

/-- Embedding of `len(voice_client.channel.members)`: the bot itself is a member only
while connected. -/
def memberCount (w : VoiceWorld) : Nat :=
  w.others + (if w.connected then 1 else 0)

/-- The argument of the `await sleep(10)` call (music.py line 441). -/
def debounce_seconds : Nat := 10

inductive HandlerPhase where
  | started
  | waiting
  | finished
  deriving DecidableEq, Repr

/-- First half of `on_voice_state_update` (music.py lines 431-441): the
handler returns at once when the bot is not connected, starts the
debounce wait when the bot is the sole channel member, and otherwise
falls through to the end of the event handler. -/
def watchdogObserve (w : VoiceWorld) : HandlerPhase :=
  if !w.connected then .finished
  else if memberCount w = 1 then .waiting
  else .finished

/-- Second half of `on_voice_state_update` (music.py lines 443-452), run
when the sleep expires: re-check membership; if the bot is still the sole
member, disconnect and clear both the queue and the current track;
otherwise abort with no state change. -/
def watchdogExpire (w : VoiceWorld) : VoiceWorld :=
  if memberCount w = 1 then
    { connected := false, others := w.others,
      player := { queue := [], current_song := none } }
  else w

/-- The world together with the phase of every handler instance (one
entry per `on_voice_state_update` invocation for this guild). -/
structure WatchSys where
  world : VoiceWorld
  phases : List HandlerPhase
  deriving DecidableEq, Repr

inductive WatchEvent where
  | join
  | leave
  | observe (i : Nat)
  | expire (i : Nat)
  deriving DecidableEq, Repr

/-- One interleaving step: a user joins or leaves the channel of the bot, or
handler instance `i` runs one of its two halves (each half runs at most
once, in order). -/
def watchStep (s : WatchSys) : WatchEvent → WatchSys
  | .join => { s with world := { s.world with others := s.world.others + 1 } }
  | .leave => { s with world := { s.world with others := s.world.others - 1 } }
  | .observe i =>
    if s.phases.get? i = some .started then
      { s with phases := s.phases.set i (watchdogObserve s.world) }
    else s
  | .expire i =>
    if s.phases.get? i = some .waiting then
      { world := watchdogExpire s.world, phases := s.phases.set i .finished }
    else s

/-- Whether this event actually disconnects the bot from the channel: an
expiry re-check that passes while the bot is still connected. -/
def isRealDisconnect (s : WatchSys) : WatchEvent → Bool
  | .expire i =>
    s.phases.get? i = some .waiting && memberCount s.world = 1 && s.world.connected
  | _ => false

/-- Number of actual disconnects performed along a trace of events. -/
def realDisconnects (s : WatchSys) : List WatchEvent → Nat
  | [] => 0
  | e :: rest =>
    (if isRealDisconnect s e then 1 else 0) + realDisconnects (watchStep s e) rest

/-! ## `ListPaginator` (pagination.py lines 4-15) -/

structure PageEntry (α : Type) where
  input_index : Nat
  data : α
  deriving DecidableEq, Repr

structure ListPaginator (α : Type) where
  pages : List (List (PageEntry α))
  items_per_page : Nat
  num_pages : Nat
  deriving DecidableEq, Repr

/-- The fill loop of `ListPaginator.__init__` (pagination.py lines
11-15): iteration `i` pops the head of `items` and appends it, wrapped
with its input index, to page `i / items_per_page` in place.  The result
pairs the pages with what is left of the caller list after the pops. -/
def fillPages (items_per_page : Nat) :
    Nat → List α → List (List (PageEntry α)) → List (List (PageEntry α)) × List α
  | _, [], pages => (pages, [])
  | i, x :: rest, pages =>
    fillPages items_per_page (i + 1) rest
      (pages.modify (fun page => page ++ [⟨i, x⟩]) (i / items_per_page))

/-- Embedding of `ListPaginator.__init__` (pagination.py lines 5-15):
`ceil(n / k)` empty pages are allocated, then the loop distributes the
items.  For `k > 0`, `math.ceil(n / k) = (n + k - 1) / k` in `Nat`
division.  The second component is the `items` list of the caller after
construction (the loop pops every element). -/
def ListPaginator.ofItems (items : List α) (items_per_page : Nat) :
    ListPaginator α × List α :=
  let num_pages := (items.length + items_per_page - 1) / items_per_page
  let filled := fillPages items_per_page 0 items (List.replicate num_pages [])
  (⟨filled.1, items_per_page, num_pages⟩, filled.2)

/-! ## Helper lemmas about the error check -/

/-- On an ok-status envelope the error check reports no error. -/
theorem check_ok_status {e : Envelope} (h : e.status = "ok") :
    check_subsonic_error e = .ok false := by
  simp [check_subsonic_error, h]

/-- On a failed envelope whose code is 70, the check flags the error
without raising. -/
theorem check_code70 {e : Envelope} (hst : e.status ≠ "ok")
    (hc : e.errorCode = some 70) : check_subsonic_error e = .ok true := by
  obtain ⟨st, code?, msg?⟩ := e
  simp only at hst hc
  subst hc
  simp [check_subsonic_error, checkErrCode, hst]

/-- On a failed envelope whose code is anything other than 70 the check
raises `APIError` carrying that code. -/
theorem check_raises {e : Envelope} {c : Int} (hst : e.status ≠ "ok")
    (hc : e.errorCode = some c) (h70 : c ≠ 70) :
    ∃ m, check_subsonic_error e = .error (.APIError c m) := by
  obtain ⟨st, code?, msg?⟩ := e
  simp only at hst hc
  subst hc
  simp only [check_subsonic_error, if_neg hst, checkErrCode]
  split_ifs
  all_goals exact ⟨_, rfl⟩

/-- Whenever the check raises `APIError`, the envelope status was not ok
and the carried code is the code of the envelope. -/
theorem check_raises_inv {e : Envelope} {c : Int} {m : String}
    (h : check_subsonic_error e = .error (.APIError c m)) :
    e.status ≠ "ok" ∧ e.errorCode = some c := by
  obtain ⟨st, code?, msg?⟩ := e
  by_cases hst : st = "ok"
  · rw [check_subsonic_error, if_pos hst] at h
    exact absurd h (by simp)
  · refine ⟨hst, ?_⟩
    rcases code? with _ | c2
    · rw [check_subsonic_error, if_neg hst] at h
      simp [checkErrCode] at h
    · by_cases h70 : c2 = 70
      · subst h70
        rw [@check_code70 ⟨st, some 70, msg?⟩ hst rfl] at h
        exact absurd h (by simp)
      · obtain ⟨m2, hm⟩ := @check_raises ⟨st, some c2, msg?⟩ c2 hst rfl h70
        rw [hm] at h
        simp_all

/-! ## Theorems for the claims -/

/-- Claim C2: the error check raises `APIError` carrying the numeric code
and a message exactly when the envelope status is not ok and the code is
one of the fatal codes {0,10,20,30,40,41,50,60}; code 70 is non-fatal
(the check returns the has-error flag without raising); any other
unrecognized code raises a generic `APIError` with "Unknown Error Code.";
an ok-status envelope never raises. -/
theorem C2_error_taxonomy (e : Envelope) :
    (e.status = "ok" → check_subsonic_error e = .ok false) ∧
    (∀ c : Int, e.status ≠ "ok" → e.errorCode = some c →
      (c ∈ fatalCodes → ∃ m, check_subsonic_error e = .error (.APIError c m)) ∧
      (c = 70 → check_subsonic_error e = .ok true) ∧
      (c ∉ fatalCodes → c ≠ 70 →
        check_subsonic_error e = .error (.APIError c "Unknown Error Code."))) ∧
    (∀ (c : Int) (m : String), check_subsonic_error e = .error (.APIError c m) →
      e.status ≠ "ok" ∧ e.errorCode = some c) := by
  refine ⟨fun h => check_ok_status h, fun c hst hc => ⟨?_, ?_, ?_⟩,
    fun c m h => check_raises_inv h⟩
  · intro hmem
    have h70 : c ≠ 70 := by
      simp only [fatalCodes, List.mem_cons, List.not_mem_nil, or_false] at hmem
      rcases hmem with rfl | rfl | rfl | rfl | rfl | rfl | rfl | rfl <;> decide
    exact check_raises hst hc h70
  · rintro rfl
    exact check_code70 hst hc
  · intro hmem h70
    obtain ⟨st, code?, msg?⟩ := e
    simp only at hst hc
    subst hc
    simp only [check_subsonic_error, if_neg hst, checkErrCode]
    split_ifs with h0 h1 h2 h3 h4 h5 h6 h7
    all_goals first
      | rfl
      | exact absurd (by simp only [fatalCodes, List.mem_cons]; omega) hmem

/-- Witness for C2 at a concrete failed envelope with fatal code 40. -/
theorem C2_error_taxonomy_witness :
    ∃ m, check_subsonic_error ⟨"failed", some 40, some "x"⟩ =
      .error (.APIError 40 m) :=
  ((C2_error_taxonomy ⟨"failed", some 40, some "x"⟩).2.1 40
    (by decide) rfl).1 (by decide)

/-- Claim C9: a `Song` constructed from a payload takes its id, title,
album name, artist name, cover id and duration from the payload when
present, and otherwise defaults title to "Unknown Track", id and cover id
to "" and duration to 0.  (The object is immutable after construction:
the class exposes the fields only through read-only property getters,
mirrored by the immutability of the Lean structure.) -/
theorem C9_song_construction (j : SongJson) :
    (∀ v, j.id = some v → (Song.ofJson j).song_id = v) ∧
    (∀ v, j.title = some v → (Song.ofJson j).title = v) ∧
    (∀ v, j.album = some v → (Song.ofJson j).album = v) ∧
    (∀ v, j.artist = some v → (Song.ofJson j).artist = v) ∧
    (∀ v, j.coverArt = some v → (Song.ofJson j).cover_id = v) ∧
    (∀ v, j.duration = some v → (Song.ofJson j).duration = v) ∧
    (j.title = none → (Song.ofJson j).title = "Unknown Track") ∧
    (j.id = none → (Song.ofJson j).song_id = "") ∧
    (j.coverArt = none → (Song.ofJson j).cover_id = "") ∧
    (j.duration = none → (Song.ofJson j).duration = 0) := by
  obtain ⟨i, t, al, ar, c, d⟩ := j
  refine ⟨fun v hv => ?_, fun v hv => ?_, fun v hv => ?_, fun v hv => ?_,
    fun v hv => ?_, fun v hv => ?_, fun h => ?_, fun h => ?_, fun h => ?_,
    fun h => ?_⟩ <;> simp_all [Song.ofJson]

/-- Witness for C9: an all-absent payload yields every placeholder, and a
fully populated payload yields the payload values. -/
theorem C9_song_construction_witness :
    (Song.ofJson ⟨none, none, none, none, none, none⟩).title = "Unknown Track" ∧
    (Song.ofJson ⟨none, none, none, none, none, none⟩).song_id = "" ∧
    (Song.ofJson ⟨none, none, none, none, none, none⟩).cover_id = "" ∧
    (Song.ofJson ⟨none, none, none, none, none, none⟩).duration = 0 ∧
    (Song.ofJson ⟨some "5", some "T", some "Al", some "Ar", some "c", some 42⟩).song_id = "5" ∧
    (Song.ofJson ⟨some "5", some "T", some "Al", some "Ar", some "c", some 42⟩).duration = 42 := by
  obtain ⟨-, -, -, -, -, -, h7, h8, h9, h10⟩ :=
    C9_song_construction ⟨none, none, none, none, none, none⟩
  obtain ⟨g1, -, -, -, -, g6, -⟩ :=
    C9_song_construction ⟨some "5", some "T", some "Al", some "Ar", some "c", some 42⟩
  exact ⟨h7 rfl, h8 rfl, h9 rfl, h10 rfl, g1 "5" rfl, g6 42 rfl⟩

/-- Counterexample to claim C3 as stated: on a failed envelope with the
fatal code 40 (bad credentials), `search` does not raise `APIError` — it
performs no envelope error check at all and returns a `SearchResults`
with empty lists. -/
theorem C3_counterexample :
    search ⟨⟨"failed", some 40, some "Wrong username or password."⟩, none⟩ =
      .ok ⟨⟨"failed", some 40, some "Wrong username or password."⟩, [], [], []⟩ := rfl

/-- Claim C3 amended: `search` performs no envelope error check, so it
never raises `APIError` for any envelope status; every response — fatal
error codes and code 70 alike — yields a `SearchResults`, whose three
lists are empty whenever the `searchResult3` section is absent (as it is
in every error response). -/
theorem C3_search_never_raises (resp : SearchResponse) :
    search resp = .ok (SearchResults.ofResponse resp) ∧
    (resp.searchResult3 = none →
      search resp = .ok ⟨resp.env, [], [], []⟩) := by
  refine ⟨rfl, fun h => ?_⟩
  simp [search, SearchResults.ofResponse, h]

/-- Witness for C3 (amended) at a concrete failed envelope. -/
theorem C3_search_never_raises_witness :
    search ⟨⟨"failed", some 0, some "Generic Error."⟩, none⟩ =
      .ok ⟨⟨"failed", some 0, some "Generic Error."⟩, [], [], []⟩ :=
  (C3_search_never_raises ⟨⟨"failed", some 0, some "Generic Error."⟩, none⟩).2 rfl

/-- A `pure` on the `Except` monad is a success value. -/
theorem except_pure {α : Type} (a : α) :
    (pure a : Except PyExc α) = .ok a := rfl

/-- Binding a success on the `Except` monad applies the continuation. -/
theorem except_bind_ok {α β : Type} (a : α) (f : α → Except PyExc β) :
    (Except.ok a : Except PyExc α) >>= f = f a := rfl

/-- Binding an error on the `Except` monad propagates the error. -/
theorem except_bind_error {α β : Type} (exc : PyExc) (f : α → Except PyExc β) :
    (Except.error exc : Except PyExc α) >>= f = .error exc := rfl

/-- Claim C1 (evaluation of the code at the failing input): `stop` clears
`current_song` before executing `queue.insert(0, player.current_song)`,
so the element requeued at queue position 0 is always `None`, never the
stopped track.  At the concrete Playing state whose current track is `t`
with an empty queue, the queue after `stop` is `[None]`, the track `t`
occurs nowhere, and the current track after the `playQueue` that follows
is `None` rather than `t`. -/
theorem C1_stop_requeues_none :
    (∀ player : StopView, (MusicCog.stop player).queue.head? = some none) ∧
    MusicCog.stop ⟨[], some ⟨"7", "Track", "Alb", "Art", "c", 100⟩⟩ =
      ⟨[none], none⟩ ∧
    (some (⟨"7", "Track", "Alb", "Art", "c", 100⟩ : Song) ∉
      (MusicCog.stop ⟨[], some ⟨"7", "Track", "Alb", "Art", "c", 100⟩⟩).queue) ∧
    (play_audio_queue
        (MusicCog.stop ⟨[], some ⟨"7", "Track", "Alb", "Art", "c", 100⟩⟩)).current_song
      = none := by
  refine ⟨fun player => rfl, rfl, ?_, rfl⟩
  decide

/-- Counterexample to claim C7 as stated: on a failed envelope with the
fatal code 0, `get_random_songs` raises `APIError` instead of returning
an empty list. -/
theorem C7_counterexample :
    get_random_songs ⟨⟨"failed", some 0, some "whoops"⟩, none⟩ =
      .error (.APIError 0 "Generic Error.") := rfl

/-- Claim C7 amended: `get_random_songs` and `get_similar_songs` return
an empty list without raising when the server reports the soft not-found
error (code 70); `get_similar_songs` also returns an empty list when the
track id is `None` (before any request) and when the response carries an
empty `similarSongs` object; but a failed envelope with any code other
than 70 propagates as a raised `APIError` from both functions rather than
being suppressed.  On an ok envelope `get_random_songs` parses the song
list (and raises `KeyError` if the path is absent). -/
theorem C7_autoplay_fetchers (r : RandomSongsResponse)
    (s : SimilarSongsResponse) (sid : String) :
    (r.env.status ≠ "ok" → r.env.errorCode = some 70 →
      get_random_songs r = .ok []) ∧
    (s.env.status ≠ "ok" → s.env.errorCode = some 70 →
      get_similar_songs (some sid) s = .ok []) ∧
    get_similar_songs none s = .ok [] ∧
    (s.env.status = "ok" → s.similarSongs = some none →
      get_similar_songs (some sid) s = .ok []) ∧
    (∀ c : Int, c ≠ 70 → r.env.status ≠ "ok" → r.env.errorCode = some c →
      ∃ m, get_random_songs r = .error (.APIError c m)) ∧
    (∀ c : Int, c ≠ 70 → s.env.status ≠ "ok" → s.env.errorCode = some c →
      ∃ m, get_similar_songs (some sid) s = .error (.APIError c m)) ∧
    (∀ items, r.env.status = "ok" → r.randomSongs_song = some items →
      get_random_songs r = .ok (items.map Song.ofJson)) := by
  refine ⟨fun hst hc => ?_, fun hst hc => ?_, ?_, fun hok hempty => ?_,
    fun c h70 hst hc => ?_, fun c h70 hst hc => ?_, fun items hok hitems => ?_⟩
  · simp [get_random_songs, check_code70 hst hc, except_bind_ok, except_pure]
  · simp [get_similar_songs, check_code70 hst hc, except_bind_ok, except_pure]
  · simp [get_similar_songs, except_pure]
  · simp [get_similar_songs, check_ok_status hok, except_bind_ok, hempty]
  · obtain ⟨m, hm⟩ := check_raises hst hc h70
    exact ⟨m, by simp [get_random_songs, hm, except_bind_error]⟩
  · obtain ⟨m, hm⟩ := check_raises hst hc h70
    exact ⟨m, by simp [get_similar_songs, hm, except_bind_error]⟩
  · simp [get_random_songs, check_ok_status hok, except_bind_ok, except_pure, hitems]

/-- Witness for C7 (amended) at concrete responses: a code-70 envelope
yields `[]` from both fetchers, a `None` id yields `[]`, and a fatal code
raises. -/
theorem C7_autoplay_fetchers_witness :
    get_random_songs ⟨⟨"failed", some 70, some "nf"⟩, none⟩ = .ok [] ∧
    get_similar_songs (some "id1") ⟨⟨"failed", some 70, some "nf"⟩, none⟩ = .ok [] ∧
    get_similar_songs none ⟨⟨"ok", none, none⟩, none⟩ = .ok [] ∧
    get_similar_songs (some "id1") ⟨⟨"ok", none, none⟩, some none⟩ = .ok [] ∧
    (∃ m, get_random_songs ⟨⟨"failed", some 40, some "bad"⟩, none⟩ =
      .error (.APIError 40 m)) := by
  obtain ⟨h1, -, -, -, h5, -, -⟩ :=
    C7_autoplay_fetchers ⟨⟨"failed", some 70, some "nf"⟩, none⟩
      ⟨⟨"failed", some 70, some "nf"⟩, none⟩ "id1"
  obtain ⟨-, h2, -, -, -, -, -⟩ :=
    C7_autoplay_fetchers ⟨⟨"failed", some 40, some "bad"⟩, none⟩
      ⟨⟨"failed", some 70, some "nf"⟩, none⟩ "id1"
  obtain ⟨-, -, h3, -, -, -, -⟩ :=
    C7_autoplay_fetchers ⟨⟨"failed", some 40, some "bad"⟩, none⟩
      ⟨⟨"ok", none, none⟩, none⟩ "id1"
  obtain ⟨-, -, -, h4, -, -, -⟩ :=
    C7_autoplay_fetchers ⟨⟨"failed", some 40, some "bad"⟩, none⟩
      ⟨⟨"ok", none, none⟩, some none⟩ "id1"
  obtain ⟨-, -, -, -, h5r, -, -⟩ :=
    C7_autoplay_fetchers ⟨⟨"failed", some 40, some "bad"⟩, none⟩
      ⟨⟨"ok", none, none⟩, some none⟩ "id1"
  exact ⟨h1 (by decide) rfl, h2 (by decide) rfl, h3, h4 rfl rfl,
    h5r 40 (by decide) (by decide) rfl⟩

/-- Counterexample to claim C6 as stated: a fetch that fails with a JSON
error envelope carrying the fatal code 40 makes `get_album_art_file`
raise `APIError` instead of returning the fallback path. -/
theorem C6_counterexample :
    get_album_art_file [] "abc" ⟨200, .json ⟨"failed", some 40, some "x"⟩⟩ =
      .error (.APIError 40 "Wrong username or password.") := rfl

/-- Claim C6 amended: for a cover id already cached, the cached path is
returned and the result is independent of the fetched response (no
network effect); on a cache miss, a non-200 response or a code-70
envelope yields the fallback "not found" asset path; but a JSON error
envelope with any other code makes the fetch raise `APIError` rather
than return the fallback; a successful fetch persists the file and
returns its path. -/
theorem C6_cover_art (cache : FileCache) (cover_id : String)
    (r r2 : HttpResponse) :
    ("cache/" ++ cover_id ++ ".jpg" ∈ cache →
      get_album_art_file cache cover_id r =
        .ok ("cache/" ++ cover_id ++ ".jpg", cache) ∧
      get_album_art_file cache cover_id r = get_album_art_file cache cover_id r2) ∧
    ("cache/" ++ cover_id ++ ".jpg" ∉ cache →
      (r.body = .binary → r.status ≠ 200 →
        get_album_art_file cache cover_id r =
          .ok ("resources/cover_not_found.jpg", cache)) ∧
      (∀ e : Envelope, r.body = .json e → e.status ≠ "ok" →
        e.errorCode = some 70 →
        get_album_art_file cache cover_id r =
          .ok ("resources/cover_not_found.jpg", cache)) ∧
      (∀ (e : Envelope) (c : Int), r.body = .json e → e.status ≠ "ok" →
        e.errorCode = some c → c ≠ 70 →
        ∃ m, get_album_art_file cache cover_id r = .error (.APIError c m)) ∧
      (r.status = 200 → r.body = .binary →
        get_album_art_file cache cover_id r =
          .ok ("cache/" ++ cover_id ++ ".jpg",
               ("cache/" ++ cover_id ++ ".jpg") :: cache))) := by
  refine ⟨fun hhit => ⟨?_, ?_⟩, fun hmiss =>
    ⟨fun hbin h200 => ?_, fun e hbody hst hc => ?_,
     fun e c hbody hst hc h70 => ?_, fun h200 hbin => ?_⟩⟩
  · simp [get_album_art_file, hhit]
  · simp [get_album_art_file, hhit]
  · simp [get_album_art_file, hmiss, check_subsonic_error_response, hbin,
      except_bind_ok, except_pure, h200]
  · simp [get_album_art_file, hmiss, check_subsonic_error_response, hbody,
      check_code70 hst hc, except_bind_ok, except_pure]
  · obtain ⟨m, hm⟩ := check_raises hst hc h70
    exact ⟨m, by simp [get_album_art_file, hmiss, check_subsonic_error_response,
      hbody, hm, except_bind_error]⟩
  · simp [get_album_art_file, hmiss, check_subsonic_error_response, hbin,
      except_bind_ok, except_pure, h200]

/-- Witness for C6 (amended): a cached id short-circuits for two distinct
responses, a non-200 miss yields the fallback, and a code-70 envelope
yields the fallback. -/
theorem C6_cover_art_witness :
    get_album_art_file ["cache/c1.jpg"] "c1" ⟨200, .binary⟩ =
      .ok ("cache/c1.jpg", ["cache/c1.jpg"]) ∧
    get_album_art_file ["cache/c1.jpg"] "c1" ⟨200, .binary⟩ =
      get_album_art_file ["cache/c1.jpg"] "c1" ⟨500, .json ⟨"failed", some 0, none⟩⟩ ∧
    get_album_art_file [] "c2" ⟨404, .binary⟩ =
      .ok ("resources/cover_not_found.jpg", []) ∧
    get_album_art_file [] "c2" ⟨200, .json ⟨"failed", some 70, some "nf"⟩⟩ =
      .ok ("resources/cover_not_found.jpg", []) := by
  obtain ⟨hhit, -⟩ :=
    C6_cover_art ["cache/c1.jpg"] "c1" ⟨200, .binary⟩
      ⟨500, .json ⟨"failed", some 0, none⟩⟩
  obtain ⟨-, hmiss1⟩ := C6_cover_art [] "c2" ⟨404, .binary⟩ ⟨404, .binary⟩
  obtain ⟨-, hmiss2⟩ :=
    C6_cover_art [] "c2" ⟨200, .json ⟨"failed", some 70, some "nf"⟩⟩
      ⟨404, .binary⟩
  refine ⟨(hhit (by decide)).1, (hhit (by decide)).2, ?_, ?_⟩
  · exact (hmiss1 (by decide)).1 rfl (by decide)
  · exact (hmiss2 (by decide)).2.1 ⟨"failed", some 70, some "nf"⟩ rfl
      (by decide) rfl

/-- When every album fetch passes the error check and carries an album
payload, the discography loop assembles exactly one parsed `Album` per
album id, in order. -/
theorem discographyLoop_ok (fetchAlbum : String → AlbumResponse)
    (g : AlbumRefJson → AlbumJson) :
    ∀ refs : List AlbumRefJson,
      (∀ ref ∈ refs, check_subsonic_error (fetchAlbum ref.id).env = .ok false) →
      (∀ ref ∈ refs, (fetchAlbum ref.id).album = some (g ref)) →
      discographyLoop fetchAlbum refs =
        .ok (some (refs.map fun ref => Album.ofJson (g ref))) := by
  intro refs
  induction refs with
  | nil => intro _ _; simp [discographyLoop]
  | cons a rest ih =>
    intro hchk halb
    have h1 := hchk a (by simp)
    have h2 := halb a (by simp)
    have h3 := ih (fun r hr => hchk r (by simp [hr])) (fun r hr => halb r (by simp [hr]))
    simp [discographyLoop, h1, h2, h3, except_bind_ok, except_pure]

/-- If the discography loop produced an album list, every album fetch
along the way passed the error check: a single failing album fetch makes
a list result impossible. -/
theorem discographyLoop_all_checked (fetchAlbum : String → AlbumResponse) :
    ∀ (refs : List AlbumRefJson) (l : List Album),
      discographyLoop fetchAlbum refs = .ok (some l) →
      ∀ ref ∈ refs, check_subsonic_error (fetchAlbum ref.id).env = .ok false := by
  intro refs
  induction refs with
  | nil => intro l _ ref href; simp at href
  | cons a rest ih =>
    intro l h ref href
    rw [discographyLoop] at h
    rcases hc : check_subsonic_error (fetchAlbum a.id).env with exc | b
    · simp [hc, except_bind_error] at h
    · cases b with
      | true => simp [hc, except_bind_ok, except_pure] at h
      | false =>
        rcases halb : (fetchAlbum a.id).album with _ | aj
        · simp [hc, halb, except_bind_ok, except_pure] at h
        · rcases hrec : discographyLoop fetchAlbum rest with exc | o
          · simp [hc, halb, hrec, except_bind_ok, except_bind_error, except_pure] at h
          · rcases List.mem_cons.mp href with rfl | hmem
            · exact hc
            · rcases o with _ | l2
              · simp [hc, halb, hrec, except_bind_ok, except_pure] at h
              · exact ih l2 hrec ref hmem

/-- Claim C5: `get_artist_discography` proceeds in phases — resolve the
artist id via the artist-restricted search, fetch the artist for its
album id list, then fetch each album individually — and assembles one
full `Album` (with tracks) per album id when every fetch succeeds; a
failure fetching any single album makes a list result impossible (the
loop aborts with `None` or a raised error, never partial results). -/
theorem C5_discography_two_phase (search_data : SearchResponse)
    (artistResponse : ArtistResponse) (fetchAlbum : String → AlbumResponse)
    (refs : List AlbumRefJson) (aid : Option String)
    (hsearch : get_artist_id search_data = .ok aid)
    (hchk : check_subsonic_error artistResponse.env = .ok false)
    (hrefs : artistResponse.artist_album = some (some refs)) :
    (∀ g : AlbumRefJson → AlbumJson,
      (∀ ref ∈ refs, check_subsonic_error (fetchAlbum ref.id).env = .ok false) →
      (∀ ref ∈ refs, (fetchAlbum ref.id).album = some (g ref)) →
      get_artist_discography search_data artistResponse fetchAlbum =
        .ok (some (refs.map fun ref => Album.ofJson (g ref)))) ∧
    (∀ l : List Album,
      get_artist_discography search_data artistResponse fetchAlbum = .ok (some l) →
      ∀ ref ∈ refs, check_subsonic_error (fetchAlbum ref.id).env = .ok false) := by
  have hmain : get_artist_discography search_data artistResponse fetchAlbum =
      discographyLoop fetchAlbum refs := by
    rw [get_artist_discography, hsearch, except_bind_ok, hchk, except_bind_ok]
    simp [hrefs]
  refine ⟨fun g h1 h2 => ?_, fun l h => ?_⟩
  · rw [hmain]
    exact discographyLoop_ok fetchAlbum g refs h1 h2
  · exact discographyLoop_all_checked fetchAlbum refs l (hmain ▸ h)

/-- Witness for C5 at a concrete one-album discography: the search
resolves the artist, the artist fetch lists one album id, the album fetch
succeeds, and the assembled result is that one parsed album. -/
theorem C5_discography_two_phase_witness :
    get_artist_discography
      ⟨⟨"ok", none, none⟩, some ⟨none, none, some [⟨some "ar1", some "Artist", none, none⟩]⟩⟩
      ⟨⟨"ok", none, none⟩, some (some [⟨"al1"⟩])⟩
      (fun _ => ⟨⟨"ok", none, none⟩,
        some ⟨some "al1", some "Alb", some "Art", none, some 1, some 100, some 2020,
          [⟨some "s1", some "T", some "Alb", some "Art", none, some 100⟩]⟩⟩) =
      .ok (some [Album.ofJson
        ⟨some "al1", some "Alb", some "Art", none, some 1, some 100, some 2020,
          [⟨some "s1", some "T", some "Alb", some "Art", none, some 100⟩]⟩]) := by
  have h := C5_discography_two_phase
    ⟨⟨"ok", none, none⟩, some ⟨none, none, some [⟨some "ar1", some "Artist", none, none⟩]⟩⟩
    ⟨⟨"ok", none, none⟩, some (some [⟨"al1"⟩])⟩
    (fun _ => ⟨⟨"ok", none, none⟩,
      some ⟨some "al1", some "Alb", some "Art", none, some 1, some 100, some 2020,
        [⟨some "s1", some "T", some "Alb", some "Art", none, some 100⟩]⟩⟩)
    [⟨"al1"⟩] (some "ar1") rfl rfl rfl
  exact h.1
    (fun _ => ⟨some "al1", some "Alb", some "Art", none, some 1, some 100, some 2020,
      [⟨some "s1", some "T", some "Alb", some "Art", none, some 100⟩]⟩)
    (fun ref _ => rfl) (fun ref _ => rfl)

/-- Pulling the element at index `i` to the front of a list yields a
permutation of it. -/
theorem perm_get_cons_eraseIdx (l : List α) (i : Nat) (h : i < l.length) :
    l.Perm (l.get ⟨i, h⟩ :: l.eraseIdx i) := by
  conv_lhs => rw [← List.take_append_drop i l]
  rw [List.drop_eq_getElem_cons h, List.eraseIdx_eq_take_drop_succ,
    List.get_eq_getElem]
  exact List.perm_middle

/-- The random-pop loop of `shuffle` returns a permutation of its input,
whatever the random draws. -/
theorem fyLoop_perm (pick : Nat → Nat) :
    ∀ (n : Nat) (temp : List α), temp.length ≤ n → ∀ step,
      (fyLoop pick step temp).Perm temp := by
  intro n
  induction n with
  | zero =>
    intro temp h step
    have hnil : temp = [] := List.eq_nil_of_length_eq_zero (Nat.le_zero.mp h)
    subst hnil
    simp [fyLoop]
  | succ n ih =>
    intro temp h step
    match temp with
    | [] => simp [fyLoop]
    | x :: rest =>
      rw [fyLoop]
      have hlt : pick step % (x :: rest).length < (x :: rest).length :=
        Nat.mod_lt _ (Nat.succ_pos _)
      have hrec := ih ((x :: rest).eraseIdx (pick step % (x :: rest).length))
        (by
          rw [List.length_eraseIdx_of_lt hlt]
          simpa using Nat.le_of_succ_le_succ h)
        (step + 1)
      exact (hrec.cons _).trans (perm_get_cons_eraseIdx _ _ hlt).symm

/-- Deep-copying preserves the stored values. -/
theorem deepcopyList_map_val : ∀ (base : Nat) (l : List (Ref α)),
    (deepcopyList base l).map Ref.val = l.map Ref.val
  | _, [] => rfl
  | base, r :: rest => by
    simp [deepcopyList, deepcopyList_map_val (base + 1) rest]

/-- Claim C4 amended: `shuffle()` replaces the queue with a permutation
of deep copies of its elements — the multiset of track values is
preserved for every random choice sequence, and the current track is
untouched; on a queue of length at most 1 the value sequence is unchanged
(though the queue now holds an equal-valued copy, not the original
object). -/
theorem C4_shuffle_value_permutation (pick : Nat → Nat) (base : Nat)
    (player : ShuffleView) :
    ((MusicCog.shuffle pick base player).queue.map Ref.val).Perm
      (player.queue.map Ref.val) ∧
    (MusicCog.shuffle pick base player).current_song = player.current_song ∧
    (player.queue.length ≤ 1 →
      (MusicCog.shuffle pick base player).queue.map Ref.val =
        player.queue.map Ref.val) := by
  refine ⟨?_, rfl, ?_⟩
  · have h1 := fyLoop_perm pick (deepcopyList base player.queue).length
      (deepcopyList base player.queue) le_rfl 0
    have h2 := h1.map Ref.val
    rw [deepcopyList_map_val] at h2
    simpa [MusicCog.shuffle] using h2
  · intro hlen
    match hq : player.queue with
    | [] => simp [MusicCog.shuffle, hq, deepcopyList, fyLoop]
    | [r] => simp [MusicCog.shuffle, hq, deepcopyList, fyLoop, Nat.mod_one, List.eraseIdx]
    | a :: b :: rest =>
      rw [hq] at hlen
      simp at hlen

/-- Witness for C4 (amended) on a concrete two-element queue with a
concrete draw sequence: the value multiset is preserved and the current
track is untouched. -/
theorem C4_shuffle_value_permutation_witness :
    ((MusicCog.shuffle (fun _ => 1) 2
        ⟨[⟨0, ⟨"1", "A", "Al", "Ar", "c", 1⟩⟩, ⟨1, ⟨"2", "B", "Al", "Ar", "c", 2⟩⟩],
          none⟩).queue.map Ref.val).Perm
      [⟨"1", "A", "Al", "Ar", "c", 1⟩, ⟨"2", "B", "Al", "Ar", "c", 2⟩] ∧
    (MusicCog.shuffle (fun _ => 1) 2
        ⟨[⟨0, ⟨"1", "A", "Al", "Ar", "c", 1⟩⟩, ⟨1, ⟨"2", "B", "Al", "Ar", "c", 2⟩⟩],
          none⟩).current_song = none ∧
    ((MusicCog.shuffle (fun _ => 1) 7 ⟨[⟨0, ⟨"1", "A", "Al", "Ar", "c", 1⟩⟩],
        none⟩).queue.map Ref.val) = [⟨"1", "A", "Al", "Ar", "c", 1⟩] := by
  obtain ⟨h1, h2, -⟩ := C4_shuffle_value_permutation (fun _ => 1) 2
    ⟨[⟨0, ⟨"1", "A", "Al", "Ar", "c", 1⟩⟩, ⟨1, ⟨"2", "B", "Al", "Ar", "c", 2⟩⟩], none⟩
  obtain ⟨-, -, h3⟩ := C4_shuffle_value_permutation (fun _ => 1) 7
    ⟨[⟨0, ⟨"1", "A", "Al", "Ar", "c", 1⟩⟩], none⟩
  exact ⟨h1, h2, h3 (by decide)⟩

/-- Counterexample to claim C4 as stated: on the one-element queue whose
single Track object lives at address 0, `shuffle` installs a queue whose
element is the deep copy at the fresh address 1 — not the very same
Track object, and not a strict no-op on a queue of length 1. -/
theorem C4_counterexample :
    (MusicCog.shuffle (fun _ => 0) 1
        ⟨[⟨0, ⟨"1", "T", "Al", "Ar", "c", 1⟩⟩], none⟩).queue =
      [⟨1, ⟨"1", "T", "Al", "Ar", "c", 1⟩⟩] ∧
    (MusicCog.shuffle (fun _ => 0) 1
        ⟨[⟨0, ⟨"1", "T", "Al", "Ar", "c", 1⟩⟩], none⟩).queue ≠
      [⟨0, ⟨"1", "T", "Al", "Ar", "c", 1⟩⟩] := by
  constructor
  · simp [MusicCog.shuffle, deepcopyList, fyLoop]
  · simp [MusicCog.shuffle, deepcopyList, fyLoop]

/-- No interleaving step can reconnect the bot: connectivity is monotone
non-increasing. -/
theorem watchStep_connected_mono (s : WatchSys) (e : WatchEvent)
    (h : (watchStep s e).world.connected = true) : s.world.connected = true := by
  cases e with
  | join => exact h
  | leave => exact h
  | observe i =>
    rw [watchStep] at h
    split_ifs at h <;> exact h
  | expire i =>
    rw [watchStep] at h
    split_ifs at h with hp
    · simp only [watchdogExpire] at h
      split_ifs at h with hm
      exact h
    · exact h

/-- An actual disconnect leaves the bot disconnected. -/
theorem watchStep_disconnects (s : WatchSys) (e : WatchEvent)
    (h : isRealDisconnect s e = true) :
    (watchStep s e).world.connected = false := by
  cases e with
  | join => simp [isRealDisconnect] at h
  | leave => simp [isRealDisconnect] at h
  | observe i => simp [isRealDisconnect] at h
  | expire i =>
    simp only [isRealDisconnect, Bool.and_eq_true, decide_eq_true_eq] at h
    rw [watchStep, if_pos h.1.1]
    rw [watchdogExpire, if_pos h.1.2]

/-- While the bot is disconnected no trace performs an actual disconnect. -/
theorem realDisconnects_of_disconnected (tr : List WatchEvent) :
    ∀ s : WatchSys, s.world.connected = false → realDisconnects s tr = 0 := by
  induction tr with
  | nil => intro s _; rfl
  | cons e rest ih =>
    intro s hs
    have hnot : isRealDisconnect s e = false := by
      cases e with
      | join => rfl
      | leave => rfl
      | observe i => rfl
      | expire i => simp [isRealDisconnect, hs]
    have hstep : (watchStep s e).world.connected = false := by
      by_contra hcon
      rw [Bool.not_eq_false] at hcon
      rw [watchStep_connected_mono s e hcon] at hs
      exact absurd hs (by simp)
    rw [realDisconnects, hnot, ih (watchStep s e) hstep]
    simp

/-- Claim C8: an occupancy change while the bot is connected and alone
starts the 10-second debounce wait; at expiry membership is re-checked —
still alone disconnects the bot and hard-resets the player (queue
emptied, current track cleared, other members untouched), while any
joined member aborts with no state change at all; and along any
interleaving of membership events with any number of overlapping handler
instances, at most one actual disconnect is ever performed. -/
theorem C8_occupancy_watchdog :
    debounce_seconds = 10 ∧
    (∀ w : VoiceWorld, w.connected = true → memberCount w = 1 →
      watchdogObserve w = .waiting) ∧
    (∀ w : VoiceWorld, memberCount w = 1 →
      watchdogExpire w = ⟨false, w.others, ⟨[], none⟩⟩) ∧
    (∀ w : VoiceWorld, memberCount w ≠ 1 → watchdogExpire w = w) ∧
    (∀ (s : WatchSys) (tr : List WatchEvent), realDisconnects s tr ≤ 1) := by
  refine ⟨rfl, fun w hc hm => ?_, fun w hm => ?_, fun w hm => ?_, fun s tr => ?_⟩
  · rw [watchdogObserve, hc]
    simp [hm]
  · rw [watchdogExpire, if_pos hm]
  · rw [watchdogExpire, if_neg hm]
  · induction tr generalizing s with
    | nil => exact Nat.zero_le 1
    | cons e rest ih =>
      rw [realDisconnects]
      by_cases hd : isRealDisconnect s e = true
      · rw [hd, realDisconnects_of_disconnected rest (watchStep s e)
          (watchStep_disconnects s e hd)]
        simp
      · rw [Bool.not_eq_true] at hd
        rw [hd]
        simpa using ih (watchStep s e)

/-- Witness for C8 at concrete worlds and a concrete overlapping trace:
the bot alone (connected, no others) starts the wait; still alone at
expiry yields the hard reset; one joined member at expiry leaves the
world untouched; and a trace in which two handler instances both observe
and both expire performs exactly one actual disconnect. -/
theorem C8_occupancy_watchdog_witness :
    watchdogObserve ⟨true, 0, ⟨[⟨"1", "A", "Al", "Ar", "c", 9⟩], none⟩⟩ = .waiting ∧
    watchdogExpire ⟨true, 0, ⟨[⟨"1", "A", "Al", "Ar", "c", 9⟩],
        some ⟨"2", "B", "Al", "Ar", "c", 9⟩⟩⟩ = ⟨false, 0, ⟨[], none⟩⟩ ∧
    watchdogExpire ⟨true, 1, ⟨[⟨"1", "A", "Al", "Ar", "c", 9⟩], none⟩⟩ =
      ⟨true, 1, ⟨[⟨"1", "A", "Al", "Ar", "c", 9⟩], none⟩⟩ ∧
    realDisconnects ⟨⟨true, 0, ⟨[], none⟩⟩, [.started, .started]⟩
      [.observe 0, .observe 1, .expire 0, .expire 1] ≤ 1 := by
  obtain ⟨-, h1, h2, h3, h4⟩ := C8_occupancy_watchdog
  exact ⟨h1 _ rfl (by decide), h2 _ (by decide), h3 _ (by decide),
    h4 ⟨⟨true, 0, ⟨[], none⟩⟩, [.started, .started]⟩
      [.observe 0, .observe 1, .expire 0, .expire 1]⟩

/-- Appending an element to a page after which every page is empty
appends it to the flattened page sequence. -/
theorem flatten_modify_append {β : Type} (x : β) :
    ∀ (pages : List (List β)) (b : Nat), b < pages.length →
      (∀ j, b < j → ∀ hj : j < pages.length, pages.get ⟨j, hj⟩ = []) →
      (pages.modify (fun page => page ++ [x]) b).flatten = pages.flatten ++ [x] := by
  intro pages
  induction pages with
  | nil => intro b hb _; simp at hb
  | cons p ps ih =>
    intro b hb hafter
    cases b with
    | zero =>
      have hps : ps.flatten = [] := by
        rw [List.flatten_eq_nil_iff]
        intro l hl
        obtain ⟨⟨j, hj⟩, hjl⟩ := List.mem_iff_get.mp hl
        have h2 := hafter (j + 1) (Nat.succ_pos _)
          (by simpa using Nat.succ_lt_succ hj)
        rw [List.get_eq_getElem] at h2 hjl
        simp only [List.getElem_cons_succ] at h2
        rw [← hjl]
        exact h2
      simp [hps]
    | succ b =>
      have h2 : (ps.modify (fun page => page ++ [x]) b).flatten =
          ps.flatten ++ [x] := by
        refine ih b (by simpa using Nat.lt_of_succ_lt_succ hb) ?_
        intro j hbj hj
        have h3 := hafter (j + 1) (Nat.succ_lt_succ hbj)
          (by simpa using Nat.succ_lt_succ hj)
        simpa using h3
      simp [h2]

/-- The fill loop pops every element of the caller list. -/
theorem fillPages_snd {α : Type} (k : Nat) :
    ∀ (i : Nat) (items : List α) (pages : List (List (PageEntry α))),
      (fillPages k i items pages).2 = [] := by
  intro i items
  induction items generalizing i with
  | nil => intro pages; rfl
  | cons x rest ih => intro pages; exact ih (i + 1) _

/-- The fill loop never changes the number of pages. -/
theorem fillPages_length {α : Type} (k : Nat) :
    ∀ (items : List α) (i : Nat) (pages : List (List (PageEntry α))),
      (fillPages k i items pages).1.length = pages.length := by
  intro items
  induction items with
  | nil => intro i pages; rfl
  | cons x rest ih =>
    intro i pages
    rw [fillPages, ih]
    exact List.length_modify _ _ _

/-- Flattening the filled pages recovers the items in order, each tagged
with its input index, provided the pages after the current bucket are
still empty and there is room for every remaining item. -/
theorem fillPages_flatten {α : Type} (k : Nat) (hk : 0 < k) :
    ∀ (items : List α) (i : Nat) (pages : List (List (PageEntry α))),
      (items = [] ∨ (i + items.length - 1) / k < pages.length) →
      (∀ j, i ≤ j * k → ∀ hj : j < pages.length, pages.get ⟨j, hj⟩ = []) →
      (fillPages k i items pages).1.flatten =
        pages.flatten ++ (List.enumFrom i items).map fun p => ⟨p.1, p.2⟩ := by
  intro items
  induction items with
  | nil => intro i pages _ _; simp [fillPages]
  | cons x rest ih =>
    intro i pages hrange hempty
    have hlast : (i + rest.length) / k < pages.length := by
      rcases hrange with h | h
      · exact absurd h (by simp)
      · have harith : i + (x :: rest).length - 1 = i + rest.length := by
          simp only [List.length_cons]
          omega
        rwa [harith] at h
    have hblt : i / k < pages.length :=
      Nat.lt_of_le_of_lt (Nat.div_le_div_right (Nat.le_add_right i rest.length)) hlast
    have hself : (i / k) * k ≤ i := Nat.div_mul_le_self i k
    have hflat := flatten_modify_append (β := PageEntry α) ⟨i, x⟩ pages (i / k) hblt
      (by
        intro j hbj hj
        refine hempty j ?_ hj
        have := (Nat.div_lt_iff_lt_mul hk).mp hbj
        omega)
    have hrange2 : rest = [] ∨
        ((i + 1) + rest.length - 1) / k <
          (pages.modify (fun page => page ++ [(⟨i, x⟩ : PageEntry α)]) (i / k)).length := by
      rcases rest with _ | ⟨y, ys⟩
      · exact Or.inl rfl
      · refine Or.inr ?_
        rw [List.length_modify]
        have harith : i + 1 + (y :: ys).length - 1 = i + (y :: ys).length := by
          simp only [List.length_cons]
          omega
        rw [harith]
        exact hlast
    have hempty2 : ∀ j, (i + 1) ≤ j * k →
        ∀ hj : j < (pages.modify (fun page => page ++ [(⟨i, x⟩ : PageEntry α)]) (i / k)).length,
          (pages.modify (fun page => page ++ [(⟨i, x⟩ : PageEntry α)]) (i / k)).get ⟨j, hj⟩
            = [] := by
      intro j hij hj
      have hjlen : j < pages.length := by simpa using hj
      have hne : i / k ≠ j := by
        intro hEq
        subst hEq
        omega
      rw [List.get_eq_getElem]
      rw [List.getElem_modify_ne _ pages hne]
      have h5 := hempty j (by omega) hjlen
      rw [List.get_eq_getElem] at h5
      exact h5
    rw [fillPages, ih (i + 1) _ hrange2 hempty2, hflat]
    simp [List.append_assoc]

/-- Claim C10: constructing a `ListPaginator` from `n` items with
`items_per_page = k > 0` produces exactly `ceil(n / k)` pages (in `Nat`
arithmetic, `(n + k - 1) / k` pages — the bounds conjuncts pin that
value to the ceiling) whose concatenation is the `n` items in their
original order, each wrapped in a record whose `input_index` is the
original position of the item; and construction leaves the caller items
list empty (every item was popped). -/
theorem C10_paginator {α : Type} (items : List α) (k : Nat) (hk : 0 < k) :
    (ListPaginator.ofItems items k).1.pages.length = (items.length + k - 1) / k ∧
    (ListPaginator.ofItems items k).1.num_pages = (items.length + k - 1) / k ∧
    items.length ≤ (ListPaginator.ofItems items k).1.pages.length * k ∧
    (ListPaginator.ofItems items k).1.pages.length * k < items.length + k ∧
    (ListPaginator.ofItems items k).1.pages.flatten =
      items.enum.map (fun p => ⟨p.1, p.2⟩) ∧
    (ListPaginator.ofItems items k).2 = [] := by
  have hlen : (ListPaginator.ofItems items k).1.pages.length =
      (items.length + k - 1) / k := by
    rw [ListPaginator.ofItems]
    simpa using fillPages_length k items 0 (List.replicate ((items.length + k - 1) / k) [])
  have hnum : (ListPaginator.ofItems items k).1.num_pages =
      (items.length + k - 1) / k := rfl
  have hdm := Nat.div_add_mod (items.length + k - 1) k
  have hmlt : (items.length + k - 1) % k < k := Nat.mod_lt _ hk
  have hcm : (items.length + k - 1) / k * k = k * ((items.length + k - 1) / k) :=
    Nat.mul_comm _ _
  refine ⟨hlen, hnum, ?_, ?_, ?_, ?_⟩
  · rw [hlen]; omega
  · rw [hlen]; omega
  · rw [ListPaginator.ofItems]
    have h := fillPages_flatten k hk items 0
      (List.replicate ((items.length + k - 1) / k) [])
      ?hrange ?hempty
    case hrange =>
      rcases items with _ | ⟨y, ys⟩
      · exact Or.inl rfl
      · refine Or.inr ?_
        rw [List.length_replicate]
        have harith : 0 + (y :: ys).length - 1 = ys.length := by
          simp only [List.length_cons]
          omega
        have harith2 : (y :: ys).length + k - 1 = ys.length + k := by
          simp only [List.length_cons]
          omega
        rw [harith, harith2, Nat.add_div_right _ hk]
        exact Nat.lt_succ_self _
    case hempty =>
      intro j _ hj
      simp
    simpa [List.enum] using h
  · rw [ListPaginator.ofItems]
    simpa using fillPages_snd k 0 items (List.replicate ((items.length + k - 1) / k) [])

/-- Witness for C10 at three items with two per page: two pages, the
flattened pages are the indexed items in order, and the caller list
is emptied. -/
theorem C10_paginator_witness :
    (ListPaginator.ofItems [10, 20, 30] 2).1.pages.length = 2 ∧
    (ListPaginator.ofItems [10, 20, 30] 2).1.pages.flatten =
      [⟨0, 10⟩, ⟨1, 20⟩, ⟨2, 30⟩] ∧
    (ListPaginator.ofItems [10, 20, 30] 2).2 = ([] : List Nat) := by
  obtain ⟨h1, -, -, -, h5, h6⟩ := C10_paginator [10, 20, 30] 2 (by decide)
  refine ⟨by simpa using h1, by simpa [List.enum] using h5, h6⟩

end Discodrome
